import Mathlib

/-!
Verification of the grid-to-color mapping and scene-assembly algorithm of
`src/script.js` (class `App3`).

The source builds a static mosaic of cubes inside `App3.init`:

* constants `BOX_ROW = 25`, `BOX_COL = 20`, `BOX_SIZE = 1.0`;
* `gridWidth = BOX_ROW * BOX_SIZE`, `gridHeight = BOX_COL * BOX_SIZE`,
  `offsetX = -gridWidth / 2`, `offsetY = -gridHeight / 2`;
* a double loop `for (row = 1; row < BOX_COL; row++)` /
  `for (col = 1; col < BOX_ROW; col++)`; per iteration a cube starts with the
  base material color `0xffffff` (`MATERIAL_PARAM`), then a fixed sequence of
  236 `if (col === c && row === r) color = K` statements is applied in
  declaration order, and the cube is placed at
  `(col * BOX_SIZE + offsetX, -row * BOX_SIZE - offsetY, 0)`.

The sequential `if` statements are the override table: each matching entry
overwrites the working color, so the last matching entry wins.  They appear in
the source in seven comment-delimited palette groups
(`// 0x000000`, `// 0x69889d`, `// 0x6eb2dd`, `// 0x424040`, `// 0x5c6060`,
`// 0xffffff`, `// 0xff5552`); `overrideGroups` below transcribes them in
source order, and `overrideTable` is their flattening in declaration order.

Real-number arithmetic of the source (positions, camera aspect) is embedded
in `ℚ`; the JS numbers involved are small integers and halves, represented
exactly.
-/

namespace Mosaic

/-- A grid coordinate `{row, col}`, 1-indexed as in the source loops. -/
structure GridCoordinate where
  row : Int
  col : Int
deriving DecidableEq, Repr

/-- One entry of the color-override table: one
`if (col === c && row === r) color = K` statement of the source. -/
structure OverrideEntry where
  coord : GridCoordinate
  color : Nat
deriving DecidableEq, Repr

/-- The palette resolver: the working color starts at `base`
(`MATERIAL_PARAM.color` in the source) and each entry whose coordinate
matches overwrites it, in declaration order — the exact effect of the
source's sequence of `if` statements on the mutable material color. -/
def resolveColor (base : Nat) (table : List OverrideEntry)
    (p : GridCoordinate) : Nat :=
  table.foldl (fun c e => if e.coord = p then e.color else c) base

/-- A built cell: coordinate, resolved color, world position. -/
structure Cell where
  coord : GridCoordinate
  color : Nat
  x : ℚ
  y : ℚ
  z : ℚ
deriving DecidableEq, Repr

/-- The index sequence of a JS loop `for (let v = 1; v < bound; v++)`:
the integers `1, 2, …, bound - 1` (empty when `bound ≤ 1`). -/
def loopRange (bound : Int) : List Int :=
  (List.range (bound - 1).toNat).map (fun i : ℕ => 1 + (i : Int))

/-- The grid builder of `App3.init`: iterate `row` over `loopRange rows`
(`rows = BOX_COL` in the source) and `col` over `loopRange cols`
(`cols = BOX_ROW`), resolve each cell's color and place it at
`(col * size + offsetX, -row * size - offsetY, 0)` with
`offsetX = -(cols * size) / 2` and `offsetY = -(rows * size) / 2`
(the source's `-gridWidth / 2` and `-gridHeight / 2`). -/
def buildGrid (rows cols : Int) (size : ℚ) (base : Nat)
    (table : List OverrideEntry) : List Cell :=
  let offsetX : ℚ := -((cols : ℚ) * size) / 2
  let offsetY : ℚ := -((rows : ℚ) * size) / 2
  (loopRange rows).flatMap (fun row =>
    (loopRange cols).map (fun col =>
      { coord := ⟨row, col⟩
        color := resolveColor base table ⟨row, col⟩
        x := (col : ℚ) * size + offsetX
        y := -(row : ℚ) * size - offsetY
        z := 0 }))

/-- `BOX_ROW` of the source (the `col` loop bound: number of columns). -/
def BOX_ROW : Int := 25

/-- `BOX_COL` of the source (the `row` loop bound: number of rows). -/
def BOX_COL : Int := 20

/-- `BOX_SIZE` of the source. -/
def BOX_SIZE : ℚ := 1

/-- `MATERIAL_PARAM.color`, the base material color. -/
def baseColor : Nat := 0xffffff

set_option maxHeartbeats 1600000 in
/-- The seven comment-delimited override groups of the source, in source
order; each group is its comment's color together with the coordinates of
its `if` statements, in declaration order. -/
def overrideGroups : List (Nat × List GridCoordinate) :=
  [
   (0x000000,
    [⟨1, 5⟩, ⟨1, 13⟩, ⟨2, 4⟩, ⟨2, 6⟩, ⟨2, 12⟩, ⟨2, 14⟩, ⟨3, 4⟩, ⟨3, 7⟩, ⟨3, 12⟩, ⟨3, 14⟩, 
     ⟨4, 4⟩, ⟨4, 7⟩, ⟨4, 11⟩, ⟨4, 14⟩, ⟨5, 4⟩, ⟨5, 8⟩, ⟨5, 11⟩, ⟨5, 15⟩, ⟨6, 4⟩, ⟨6, 8⟩, 
     ⟨6, 10⟩, ⟨6, 15⟩, ⟨7, 5⟩, ⟨7, 9⟩, ⟨7, 15⟩, ⟨8, 5⟩, ⟨8, 15⟩, ⟨9, 6⟩, ⟨9, 16⟩, ⟨10, 5⟩, 
     ⟨10, 17⟩, ⟨11, 4⟩, ⟨11, 18⟩, ⟨12, 4⟩, ⟨12, 19⟩, ⟨13, 4⟩, ⟨13, 20⟩, ⟨14, 5⟩, ⟨14, 10⟩, 
     ⟨14, 21⟩, ⟨15, 5⟩, ⟨15, 21⟩, ⟨16, 4⟩, ⟨16, 15⟩, ⟨16, 22⟩, ⟨17, 4⟩, ⟨17, 14⟩, ⟨17, 16⟩, 
     ⟨17, 22⟩, ⟨18, 5⟩, ⟨18, 6⟩, ⟨18, 7⟩, ⟨18, 13⟩, ⟨18, 16⟩, ⟨18, 19⟩, ⟨18, 22⟩, ⟨19, 8⟩, 
     ⟨19, 14⟩, ⟨19, 17⟩, ⟨19, 18⟩, ⟨19, 20⟩, ⟨19, 21⟩]),
   (0x69889d,
    [⟨2, 5⟩, ⟨3, 5⟩, ⟨3, 6⟩, ⟨4, 5⟩, ⟨4, 6⟩, ⟨5, 6⟩, ⟨5, 7⟩, ⟨6, 7⟩, ⟨7, 7⟩, ⟨7, 8⟩, ⟨10, 15⟩, 
     ⟨13, 10⟩, ⟨16, 16⟩, ⟨18, 11⟩]),
   (0x6eb2dd,
    [⟨2, 13⟩, ⟨3, 13⟩, ⟨4, 12⟩, ⟨4, 13⟩, ⟨5, 12⟩, ⟨5, 13⟩, ⟨5, 14⟩, ⟨6, 11⟩, ⟨6, 13⟩, ⟨6, 14⟩, 
     ⟨7, 11⟩, ⟨7, 14⟩, ⟨8, 11⟩, ⟨8, 14⟩, ⟨9, 7⟩, ⟨9, 10⟩, ⟨9, 14⟩, ⟨9, 15⟩, ⟨10, 6⟩, ⟨10, 10⟩, 
     ⟨10, 11⟩, ⟨10, 12⟩, ⟨10, 14⟩, ⟨11, 5⟩, ⟨11, 6⟩, ⟨11, 9⟩, ⟨11, 10⟩, ⟨11, 11⟩, ⟨11, 12⟩, 
     ⟨11, 13⟩, ⟨12, 5⟩, ⟨12, 6⟩, ⟨12, 9⟩, ⟨12, 10⟩, ⟨12, 11⟩, ⟨13, 6⟩, ⟨13, 9⟩, ⟨15, 15⟩, 
     ⟨16, 13⟩, ⟨16, 14⟩, ⟨17, 9⟩, ⟨17, 10⟩, ⟨17, 11⟩, ⟨17, 12⟩, ⟨18, 8⟩, ⟨18, 9⟩, ⟨18, 10⟩]),
   (0x424040,
    [⟨5, 5⟩, ⟨6, 5⟩, ⟨6, 6⟩, ⟨6, 12⟩, ⟨7, 6⟩, ⟨7, 10⟩, ⟨7, 12⟩, ⟨8, 6⟩, ⟨8, 7⟩, ⟨8, 8⟩, 
     ⟨8, 12⟩, ⟨8, 13⟩, ⟨9, 11⟩, ⟨9, 13⟩, ⟨10, 13⟩, ⟨10, 16⟩, ⟨11, 16⟩, ⟨12, 12⟩, ⟨12, 13⟩, 
     ⟨12, 17⟩, ⟨13, 11⟩, ⟨13, 17⟩, ⟨14, 17⟩, ⟨15, 6⟩, ⟨15, 16⟩, ⟨15, 18⟩, ⟨16, 18⟩, ⟨17, 5⟩, 
     ⟨17, 13⟩, ⟨17, 18⟩, ⟨18, 12⟩, ⟨19, 9⟩, ⟨19, 10⟩, ⟨19, 13⟩]),
   (0x5c6060,
    [⟨7, 13⟩, ⟨8, 9⟩, ⟨8, 10⟩, ⟨9, 8⟩, ⟨9, 9⟩, ⟨9, 12⟩, ⟨10, 7⟩, ⟨10, 8⟩, ⟨10, 9⟩, ⟨11, 7⟩, 
     ⟨11, 8⟩, ⟨11, 14⟩, ⟨11, 15⟩, ⟨11, 17⟩, ⟨12, 7⟩, ⟨12, 8⟩, ⟨12, 14⟩, ⟨12, 15⟩, ⟨12, 16⟩, 
     ⟨12, 18⟩, ⟨13, 5⟩, ⟨13, 7⟩, ⟨13, 8⟩, ⟨13, 13⟩, ⟨13, 14⟩, ⟨13, 15⟩, ⟨13, 16⟩, ⟨13, 18⟩, 
     ⟨13, 19⟩, ⟨14, 6⟩, ⟨14, 7⟩, ⟨14, 8⟩, ⟨14, 9⟩, ⟨14, 13⟩, ⟨14, 14⟩, ⟨14, 15⟩, ⟨14, 16⟩, 
     ⟨14, 18⟩, ⟨14, 19⟩, ⟨14, 20⟩, ⟨15, 7⟩, ⟨15, 8⟩, ⟨15, 9⟩, ⟨15, 12⟩, ⟨15, 13⟩, ⟨15, 14⟩, 
     ⟨15, 17⟩, ⟨15, 19⟩, ⟨15, 20⟩, ⟨16, 5⟩, ⟨16, 6⟩, ⟨16, 7⟩, ⟨16, 8⟩, ⟨16, 9⟩, ⟨16, 10⟩, 
     ⟨16, 11⟩, ⟨16, 12⟩, ⟨16, 17⟩, ⟨16, 19⟩, ⟨16, 20⟩, ⟨16, 21⟩, ⟨17, 6⟩, ⟨17, 7⟩, ⟨17, 8⟩, 
     ⟨17, 17⟩, ⟨17, 19⟩, ⟨17, 20⟩, ⟨17, 21⟩, ⟨18, 17⟩, ⟨18, 18⟩, ⟨18, 20⟩, ⟨18, 21⟩, ⟨19, 11⟩, 
     ⟨19, 12⟩]),
   (0xffffff,
    [⟨13, 12⟩, ⟨14, 12⟩]),
   (0xff5552,
    [⟨14, 11⟩, ⟨15, 10⟩, ⟨15, 11⟩])]

/-- The full override table: the groups flattened in declaration order. -/
def overrideTable : List OverrideEntry :=
  overrideGroups.flatMap (fun g => g.2.map (fun p => ⟨p, g.1⟩))

/-- The scene's cell list as built by `App3.init` with the source constants. -/
def sourceGrid : List Cell :=
  buildGrid BOX_COL BOX_ROW BOX_SIZE baseColor overrideTable

/-- The coordinates visited by the double loop with the source constants. -/
def visitedCoords : List GridCoordinate :=
  (loopRange BOX_COL).flatMap (fun r =>
    (loopRange BOX_ROW).map (fun c => GridCoordinate.mk r c))

/-- The seven color values of the program: the base material color followed
by the six distinct override colors, in first-appearance order. -/
def palette : List Nat :=
  [0xffffff, 0x000000, 0x69889d, 0x6eb2dd, 0x424040, 0x5c6060, 0xff5552]

/-- The state the resize listener of the `App3` constructor acts on:
renderer size, camera aspect ratio and the built cells. -/
structure AppState where
  rendererWidth : ℕ
  rendererHeight : ℕ
  cameraAspect : ℚ
  cells : List Cell

/-- The resize listener of the `App3` constructor: set the renderer size to
the new window size, set the camera aspect to `width / height`, and touch
nothing else. -/
def onResize (w h : ℕ) (s : AppState) : AppState :=
  { s with rendererWidth := w, rendererHeight := h,
           cameraAspect := (w : ℚ) / (h : ℚ) }

/-- Refinement-comparison definition following the specification's words,
not the source: reject invalid grid dimensions (`≤ 0`) or a non-positive
cell size with an input-validation error before building anything. -/
def buildGridChecked (rows cols : Int) (size : ℚ) (base : Nat)
    (table : List OverrideEntry) : Except String (List Cell) :=
  if rows ≤ 0 ∨ cols ≤ 0 ∨ size ≤ 0 then
    Except.error "input-validation error"
  else
    Except.ok (buildGrid rows cols size base table)

/-! ## Helper lemmas -/

lemma length_loopRange (b : Int) : (loopRange b).length = (b - 1).toNat := by
  rw [loopRange, List.length_map, List.length_range]

lemma mem_loopRange {b v : Int} : v ∈ loopRange b ↔ 1 ≤ v ∧ v < b := by
  constructor
  · intro h
    obtain ⟨i, hi, hv⟩ := List.mem_map.1 h
    have hi' := List.mem_range.1 hi
    omega
  · intro h
    refine List.mem_map.2 ⟨(v - 1).toNat, List.mem_range.2 (by omega), by omega⟩

lemma nodup_loopRange (b : Int) : (loopRange b).Nodup := by
  rw [loopRange]
  refine List.Nodup.map ?_ (List.nodup_range _)
  intro i j h
  have h' : (1 : Int) + i = 1 + j := h
  omega

lemma loopRange_eq_nil {b : Int} (h : b ≤ 1) : loopRange b = [] := by
  simp [loopRange, List.range_eq_nil, Int.toNat_eq_zero]
  omega

/-- A fold of override steps over entries none of which matches `p` leaves
the working color unchanged. -/
lemma foldl_override_of_not_mem (p : GridCoordinate) (t : List OverrideEntry)
    (h : ∀ e ∈ t, e.coord ≠ p) (c : Nat) :
    t.foldl (fun c e => if e.coord = p then e.color else c) c = c := by
  induction t generalizing c with
  | nil => rfl
  | cons e t ih =>
    have he : e.coord ≠ p := h e (List.mem_cons_self e t)
    simp only [List.foldl_cons, if_neg he]
    exact ih (fun e' he' => h e' (List.mem_cons_of_mem e he')) c

/-- The resolved color is either the base color or the color of one of the
table's entries. -/
lemma resolveColor_mem (base : Nat) (t : List OverrideEntry)
    (p : GridCoordinate) :
    resolveColor base t p ∈ base :: t.map OverrideEntry.color := by
  unfold resolveColor
  induction t generalizing base with
  | nil => simp
  | cons e t ih =>
    simp only [List.foldl_cons, List.map_cons]
    by_cases he : e.coord = p
    · rw [if_pos he]
      exact List.mem_cons_of_mem _ (ih e.color)
    · rw [if_neg he]
      rcases List.mem_cons.1 (ih base) with h | h
      · exact List.mem_cons.2 (Or.inl h)
      · exact List.mem_cons.2 (Or.inr (List.mem_cons.2 (Or.inr h)))

/-- Membership characterization of the cells built by `buildGrid`. -/
lemma mem_buildGrid {R C : Int} {s : ℚ} {b : Nat} {t : List OverrideEntry}
    {c : Cell} :
    c ∈ buildGrid R C s b t ↔
      ∃ row ∈ loopRange R, ∃ col ∈ loopRange C,
        c = Cell.mk ⟨row, col⟩ (resolveColor b t ⟨row, col⟩)
              ((col : ℚ) * s + -((C : ℚ) * s) / 2)
              (-(row : ℚ) * s - -((R : ℚ) * s) / 2) 0 := by
  simp only [buildGrid, List.mem_flatMap, List.mem_map]
  constructor
  · rintro ⟨row, hrow, col, hcol, rfl⟩
    exact ⟨row, hrow, col, hcol, rfl⟩
  · rintro ⟨row, hrow, col, hcol, rfl⟩
    exact ⟨row, hrow, col, hcol, rfl⟩

/-- Forward direction of `mem_buildGrid`, with the cell spelled out. -/
lemma mk_mem_buildGrid (R C : Int) (s : ℚ) (b : Nat)
    (t : List OverrideEntry) (row col : Int)
    (hr : row ∈ loopRange R) (hc : col ∈ loopRange C) :
    Cell.mk ⟨row, col⟩ (resolveColor b t ⟨row, col⟩)
        ((col : ℚ) * s + -((C : ℚ) * s) / 2)
        (-(row : ℚ) * s - -((R : ℚ) * s) / 2) 0 ∈ buildGrid R C s b t :=
  mem_buildGrid.2 ⟨row, hr, col, hc, rfl⟩

lemma sum_flatMap_q (l : List Int) (f : Int → List ℚ) :
    (l.flatMap f).sum = (l.map (fun a => (f a).sum)).sum := by
  induction l with
  | nil => rfl
  | cons a l ih => simp [List.flatMap_cons, List.sum_append, ih]

/-! ## Claims -/

/-- C1: for every coordinate and override table holding two entries for that
coordinate with colors A then B, B declared later and no later entry
matching, `resolveColor` returns B: the working color starts at the base
color and is replaced by each matching entry in declaration order, so the
last-declared matching entry determines the result. -/
theorem resolveColor_last_override_wins (base A B : Nat) (p : GridCoordinate)
    (t1 t2 t3 : List OverrideEntry) (h3 : ∀ e ∈ t3, e.coord ≠ p) :
    resolveColor base (t1 ++ [⟨p, A⟩] ++ t2 ++ [⟨p, B⟩] ++ t3) p = B := by
  unfold resolveColor
  simp only [List.foldl_append, List.foldl_cons, List.foldl_nil]
  rw [foldl_override_of_not_mem p t3 h3]
  simp

/-- Witness for C1 at a concrete table. -/
theorem resolveColor_last_override_wins_witness :
    resolveColor 0xffffff
        ([] ++ [⟨⟨1, 1⟩, 10⟩] ++ [] ++ [⟨⟨1, 1⟩, 20⟩] ++ []) ⟨1, 1⟩ = 20 :=
  resolveColor_last_override_wins 0xffffff 10 20 ⟨1, 1⟩ [] [] [] (by simp)

/-- C2: for rows R ≥ 1 and cols C ≥ 1, `buildGrid` produces exactly
(R-1)*(C-1) cells with pairwise-distinct coordinates; with the source
constants (rows = BOX_COL = 20, cols = BOX_ROW = 25, size = 1) the grid
holds exactly 19 * 24 = 456 cells. -/
theorem buildGrid_size :
    (∀ (R C : Int) (s : ℚ) (b : Nat) (t : List OverrideEntry),
        1 ≤ R → 1 ≤ C →
        ((buildGrid R C s b t).length : Int) = (R - 1) * (C - 1) ∧
        ((buildGrid R C s b t).map Cell.coord).Nodup) ∧
    sourceGrid.length = 456 := by
  have key : ∀ (R C : Int) (s : ℚ) (b : Nat) (t : List OverrideEntry),
      1 ≤ R → 1 ≤ C →
      ((buildGrid R C s b t).length : Int) = (R - 1) * (C - 1) := by
    intro R C s b t hR hC
    have hlen : (buildGrid R C s b t).length = (R - 1).toNat * (C - 1).toNat := by
      simp [buildGrid, List.length_flatMap, Function.comp_def, List.map_const,
        List.sum_replicate, length_loopRange, smul_eq_mul, Nat.mul_comm]
    rw [hlen]
    push_cast
    rw [Int.toNat_of_nonneg (by omega), Int.toNat_of_nonneg (by omega)]
  have keyN : ∀ (R C : Int) (s : ℚ) (b : Nat) (t : List OverrideEntry),
      ((buildGrid R C s b t).map Cell.coord).Nodup := by
    intro R C s b t
    have hmap : (buildGrid R C s b t).map Cell.coord
        = (loopRange R).flatMap (fun row =>
            (loopRange C).map (fun col => GridCoordinate.mk row col)) := by
      simp [buildGrid, List.map_flatMap, List.map_map, Function.comp_def]
    rw [hmap, List.nodup_flatMap]
    constructor
    · intro row _
      refine List.Nodup.map ?_ (nodup_loopRange C)
      intro a b hab
      exact congrArg GridCoordinate.col hab
    · refine List.Pairwise.imp ?_ (nodup_loopRange R)
      intro r1 r2 hne
      simp only [Function.onFun]
      intro p hp1 hp2
      obtain ⟨c1, _, h1⟩ := List.mem_map.1 hp1
      obtain ⟨c2, _, h2⟩ := List.mem_map.1 hp2
      exact hne (congrArg GridCoordinate.row (h1.trans h2.symm))
  refine ⟨fun R C s b t hR hC => ⟨key R C s b t hR hC, keyN R C s b t⟩, ?_⟩
  have h := key BOX_COL BOX_ROW BOX_SIZE baseColor overrideTable
      (by norm_num [BOX_COL]) (by norm_num [BOX_ROW])
  rw [show ((BOX_COL : Int) - 1) * (BOX_ROW - 1) = 456 by
    norm_num [BOX_COL, BOX_ROW]] at h
  unfold sourceGrid
  exact_mod_cast h

/-- Witness for C2 at a concrete grid. -/
theorem buildGrid_size_witness :
    ((buildGrid 20 25 1 0xffffff []).length : Int) = (20 - 1) * (25 - 1) :=
  (buildGrid_size.1 20 25 1 0xffffff [] (by norm_num) (by norm_num)).1

/-- C3 counterexample: the cell at (row 1, col 1) refutes the claimed
offsets offsetX = -(COLS-1)*S/2 and offsetY = -(ROWS-1)*S/2: the source
divides the full grid width BOX_ROW*S (resp. height BOX_COL*S) by two, so
the x position of that cell is -23/2, not -11. -/
theorem layout_claim_counterexample :
    ¬ ∀ c ∈ sourceGrid,
        c.x = (c.coord.col : ℚ) * BOX_SIZE + -(((BOX_ROW : ℚ) - 1) * BOX_SIZE) / 2 ∧
        c.y = -((c.coord.row : ℚ)) * BOX_SIZE - -(((BOX_COL : ℚ) - 1) * BOX_SIZE) / 2 ∧
        c.z = 0 := by
  intro hall
  have hm := mk_mem_buildGrid BOX_COL BOX_ROW BOX_SIZE baseColor overrideTable 1 1
      (mem_loopRange.2 (by norm_num [BOX_COL])) (mem_loopRange.2 (by norm_num [BOX_ROW]))
  have hx := (hall _ hm).1
  norm_num [BOX_ROW, BOX_SIZE] at hx

/-- C3 (amended): every built cell of unit size s at grid cell (row, col)
sits at x = col*s + offsetX, y = -row*s - offsetY, z = 0, where
offsetX = -(COLS*s)/2 and offsetY = -(ROWS*s)/2 (the source divides the
full grid width and height by two, not (COLS-1)*s and (ROWS-1)*s). -/
theorem buildGrid_layout (R C : Int) (s : ℚ) (b : Nat)
    (t : List OverrideEntry) :
    ∀ c ∈ buildGrid R C s b t,
      c.x = (c.coord.col : ℚ) * s + -((C : ℚ) * s) / 2 ∧
      c.y = -((c.coord.row : ℚ)) * s - -((R : ℚ) * s) / 2 ∧
      c.z = 0 := by
  intro c hc
  obtain ⟨row, hrow, col, hcol, rfl⟩ := mem_buildGrid.1 hc
  exact ⟨rfl, rfl, rfl⟩

/-- Witness for C3 (amended) at a concrete cell of the source grid. -/
theorem buildGrid_layout_witness :
    ∃ c, c ∈ buildGrid BOX_COL BOX_ROW BOX_SIZE baseColor overrideTable ∧
      c.z = 0 := by
  have hm := mk_mem_buildGrid BOX_COL BOX_ROW BOX_SIZE baseColor overrideTable 1 1
      (mem_loopRange.2 (by norm_num [BOX_COL])) (mem_loopRange.2 (by norm_num [BOX_ROW]))
  exact ⟨_, hm, (buildGrid_layout BOX_COL BOX_ROW BOX_SIZE baseColor
      overrideTable _ hm).2.2⟩

/-- C8: the resize handler sets the camera aspect to w/h and the renderer
size to w×h, and leaves every cell (position and color) unchanged; in
particular resizing to 1024×768 yields aspect 1024/768. -/
theorem onResize_effect (w h : ℕ) (s : AppState) (_hh : 0 < h) :
    (onResize w h s).cameraAspect = (w : ℚ) / (h : ℚ) ∧
    (onResize w h s).rendererWidth = w ∧
    (onResize w h s).rendererHeight = h ∧
    (onResize w h s).cells = s.cells :=
  ⟨rfl, rfl, rfl, rfl⟩

/-- Witness for C8: resize from an 800×600 state to 1024×768. -/
theorem onResize_effect_witness :
    0 < 768 ∧
    (onResize 1024 768 (AppState.mk 800 600 ((800 : ℚ) / 600) [])).cameraAspect
      = (1024 : ℚ) / 768 :=
  ⟨by norm_num, (onResize_effect 1024 768 _ (by norm_num)).1⟩

/-- C9 counterexample: at the invalid input rows = 0, cols = 0 the source
builder completes normally with an empty cell list — it signals no
input-validation error — while the checked builder described by the
specification rejects that input. -/
theorem buildGrid_validation_counterexample :
    buildGrid 0 0 1 baseColor overrideTable = [] ∧
    buildGridChecked 0 0 1 baseColor overrideTable
      = Except.error "input-validation error" := by
  constructor
  · rfl
  · rfl

/-- C9 (amended): the source performs no input validation: for rows ≤ 0 or
cols ≤ 0 (any cell size) it completes normally, building an empty grid and
publishing no cell; no error is signaled, and under valid input no failure
occurs either (the builder is total). -/
theorem buildGrid_no_validation (R C : Int) (s : ℚ) (b : Nat)
    (t : List OverrideEntry) (h : R ≤ 0 ∨ C ≤ 0) :
    buildGrid R C s b t = [] := by
  rcases h with h | h
  · have he : loopRange R = [] := loopRange_eq_nil (by omega)
    simp [buildGrid, he]
  · have he : loopRange C = [] := loopRange_eq_nil (by omega)
    simp [buildGrid, he]

/-- Witness for C9 (amended) at rows = 0. -/
theorem buildGrid_no_validation_witness :
    ((0 : Int) ≤ 0 ∨ (5 : Int) ≤ 0) ∧ buildGrid 0 5 1 0 [] = [] :=
  ⟨Or.inl le_rfl, buildGrid_no_validation 0 5 1 0 [] (Or.inl le_rfl)⟩

/-- C4: the mean of the x positions over all 456 cells of the source grid
is exactly 0 in rational arithmetic, and likewise the mean of the y
positions: the grid is centered on the origin. -/
theorem sourceGrid_centered :
    (sourceGrid.map Cell.x).sum / (sourceGrid.length : ℚ) = 0 ∧
    (sourceGrid.map Cell.y).sum / (sourceGrid.length : ℚ) = 0 := by
  have e20 : loopRange BOX_COL
      = [1, 2, 3, 4, 5, 6, 7, 8, 9, 10, 11, 12, 13, 14, 15, 16, 17, 18, 19] := by
    decide
  have e25 : loopRange BOX_ROW
      = [1, 2, 3, 4, 5, 6, 7, 8, 9, 10, 11, 12, 13, 14, 15, 16, 17, 18, 19,
         20, 21, 22, 23, 24] := by
    decide
  have hx : (sourceGrid.map Cell.x).sum = 0 := by
    have hshape : sourceGrid.map Cell.x
        = (loopRange BOX_COL).flatMap (fun _ =>
            (loopRange BOX_ROW).map (fun col : Int =>
              (col : ℚ) * BOX_SIZE + -((BOX_ROW : ℚ) * BOX_SIZE) / 2)) := by
      simp [sourceGrid, buildGrid, List.map_flatMap, List.map_map,
        Function.comp_def]
    rw [hshape, sum_flatMap_q]
    have h0 : ((loopRange BOX_ROW).map (fun col : Int =>
        (col : ℚ) * BOX_SIZE + -((BOX_ROW : ℚ) * BOX_SIZE) / 2)).sum = 0 := by
      rw [e25]
      norm_num [BOX_ROW, BOX_SIZE]
    simp [h0]
  have hy : (sourceGrid.map Cell.y).sum = 0 := by
    have hshape : sourceGrid.map Cell.y
        = (loopRange BOX_COL).flatMap (fun row : Int =>
            (loopRange BOX_ROW).map (fun _ : Int =>
              -(row : ℚ) * BOX_SIZE - -((BOX_COL : ℚ) * BOX_SIZE) / 2)) := by
      simp [sourceGrid, buildGrid, List.map_flatMap, List.map_map,
        Function.comp_def]
    rw [hshape, sum_flatMap_q]
    have hconst : ∀ row : Int, ((loopRange BOX_ROW).map (fun _ : Int =>
        -(row : ℚ) * BOX_SIZE - -((BOX_COL : ℚ) * BOX_SIZE) / 2)).sum
          = 24 * (-(row : ℚ) * BOX_SIZE - -((BOX_COL : ℚ) * BOX_SIZE) / 2) := by
      intro row
      rw [List.map_const', List.sum_replicate, length_loopRange]
      rw [show ((BOX_ROW : Int) - 1).toNat = 24 by decide, nsmul_eq_mul]
      norm_num
    simp only [hconst]
    rw [e20]
    norm_num [BOX_COL, BOX_SIZE]
  rw [hx, hy]
  simp

set_option maxRecDepth 1000000 in
set_option maxHeartbeats 4000000 in
/-- C5 counterexample: no coordinate of the visited grid range is targeted
by override entries in more than one palette group — every coordinate lies
in at most one group of the table. -/
theorem no_multigroup_coordinate :
    ¬ ∃ p ∈ visitedCoords, 1 < overrideGroups.countP (fun g => p ∈ g.2) := by
  decide

set_option maxRecDepth 1000000 in
set_option maxHeartbeats 4000000 in
/-- C5 (amended): the coordinates of the override table are pairwise
distinct: every coordinate has at most one override entry, so no
coordinate appears in more than one palette group and the last-declared
precedence is never exercised by duplicate entries. -/
theorem overrideTable_coords_nodup :
    (overrideTable.map OverrideEntry.coord).Nodup := by
  decide

set_option maxRecDepth 1000000 in
set_option maxHeartbeats 4000000 in
/-- C6: resolveColor at (row 1, col 5) returns the black accent color
0x000000 rather than the base color, and the cube built at that grid cell
is colored black. -/
theorem cell_1_5_black :
    resolveColor baseColor overrideTable ⟨1, 5⟩ = 0x000000 ∧
    ∃ c ∈ sourceGrid, c.coord = ⟨1, 5⟩ ∧ c.color = 0x000000 := by
  have hres : resolveColor baseColor overrideTable ⟨1, 5⟩ = 0x000000 := by decide
  refine ⟨hres, ?_⟩
  have hm := mk_mem_buildGrid BOX_COL BOX_ROW BOX_SIZE baseColor overrideTable 1 5
      (mem_loopRange.2 (by norm_num [BOX_COL])) (mem_loopRange.2 (by norm_num [BOX_ROW]))
  exact ⟨_, hm, rfl, hres⟩

set_option maxRecDepth 1000000 in
set_option maxHeartbeats 4000000 in
/-- C7: resolveColor at (row 1, col 1) returns the base color 0xffffff
unchanged, because (1, 1) matches no entry of the override table. -/
theorem cell_1_1_base :
    baseColor = 0xffffff ∧
    resolveColor baseColor overrideTable ⟨1, 1⟩ = baseColor ∧
    overrideTable.all (fun e => e.coord ≠ ⟨1, 1⟩) = true := by
  decide

set_option maxRecDepth 1000000 in
set_option maxHeartbeats 4000000 in
/-- C10: the resolved color of every cell of the source grid is one of
exactly seven values — the base color 0xffffff and the six override colors
— and each of the seven values does appear on some cell. -/
theorem palette_closed :
    (∀ c ∈ sourceGrid, c.color ∈ palette) ∧
    (∀ v ∈ palette, ∃ c ∈ sourceGrid, c.color = v) := by
  have exhibit : ∀ row col : Int,
      row ∈ loopRange BOX_COL → col ∈ loopRange BOX_ROW →
      ∃ c ∈ sourceGrid,
        c.color = resolveColor baseColor overrideTable ⟨row, col⟩ := by
    intro row col hr hc
    exact ⟨_, mk_mem_buildGrid _ _ _ _ _ row col hr hc, rfl⟩
  constructor
  · intro c hc
    obtain ⟨row, hrow, col, hcol, rfl⟩ := mem_buildGrid.1 hc
    have hmem := resolveColor_mem baseColor overrideTable ⟨row, col⟩
    have hsub : ∀ v ∈ baseColor :: overrideTable.map OverrideEntry.color,
        v ∈ palette := by decide
    exact hsub _ hmem
  · intro v hv
    simp only [palette, List.mem_cons, List.not_mem_nil, or_false] at hv
    rcases hv with rfl | rfl | rfl | rfl | rfl | rfl | rfl
    · obtain ⟨c, hm, hcol⟩ := exhibit 1 1 (by decide) (by decide)
      exact ⟨c, hm, hcol.trans (by decide)⟩
    · obtain ⟨c, hm, hcol⟩ := exhibit 1 5 (by decide) (by decide)
      exact ⟨c, hm, hcol.trans (by decide)⟩
    · obtain ⟨c, hm, hcol⟩ := exhibit 2 5 (by decide) (by decide)
      exact ⟨c, hm, hcol.trans (by decide)⟩
    · obtain ⟨c, hm, hcol⟩ := exhibit 2 13 (by decide) (by decide)
      exact ⟨c, hm, hcol.trans (by decide)⟩
    · obtain ⟨c, hm, hcol⟩ := exhibit 5 5 (by decide) (by decide)
      exact ⟨c, hm, hcol.trans (by decide)⟩
    · obtain ⟨c, hm, hcol⟩ := exhibit 7 13 (by decide) (by decide)
      exact ⟨c, hm, hcol.trans (by decide)⟩
    · obtain ⟨c, hm, hcol⟩ := exhibit 14 11 (by decide) (by decide)
      exact ⟨c, hm, hcol.trans (by decide)⟩

set_option maxRecDepth 1000000 in
set_option maxHeartbeats 4000000 in
/-- Witness for C10 at the cell of coordinate (1, 1). -/
theorem palette_closed_witness :
    resolveColor baseColor overrideTable ⟨1, 1⟩ ∈ palette := by
  have hm := mk_mem_buildGrid BOX_COL BOX_ROW BOX_SIZE baseColor overrideTable 1 1
      (by decide) (by decide)
  exact palette_closed.1 _ hm

end Mosaic
